import Mathlib

/-!
Shallow embedding of the LibraryProject data layer (src/db.py, src/books.py,
src/users.py, src/borrow.py, src/reports.py) and proofs about its
borrow/return subsystem.

The SQLite database is modelled as a `DB` value: the three tables are lists
of rows in insertion order, and the AUTOINCREMENT counters are carried
explicitly (`nextBookId`, `nextUserId`, `nextBorrowId`; SQLite rowids start
at 1).  A connection (`Conn`) carries the durable state it opened on plus the
working state of the current transaction: `exec` applies a SQL statement to
the working state, `commit` publishes it, `rollback` discards it, and
`close` without a commit also discards it (SQLite rolls back an open
transaction on close).  Each Python function is translated statement by
statement on top of this.
-/

structure Book where
  book_id : Nat
  title : String
  author : String
  year : Option Int
  available : Int
deriving Repr, DecidableEq

structure UserRow where
  user_id : Nat
  name : String
  phone : Option String
  email : Option String
deriving Repr, DecidableEq

structure BorrowRow where
  borrow_id : Nat
  book_id : Nat
  user_id : Nat
  borrow_date : String
  return_date : Option String
deriving Repr, DecidableEq

structure DB where
  books : List Book
  users : List UserRow
  borrows : List BorrowRow
  nextBookId : Nat
  nextUserId : Nat
  nextBorrowId : Nat
deriving Repr, DecidableEq

/-- The state produced by `init_db` in src/db.py: three empty tables. -/
def init_db : DB := ⟨[], [], [], 1, 1, 1⟩

/-- A SQLite connection: the durable state it opened on and the working
state of the current (implicit) transaction. -/
structure Conn where
  durable : DB
  working : DB
deriving Repr, DecidableEq

/-- Function get_connection in src/db.py: open a connection on the current durable
state; no transaction is pending yet. -/
def get_connection (db : DB) : Conn := ⟨db, db⟩

/-- A cur.execute call of a data-modifying statement: applies to the working
state only; nothing is durable until `commit`. -/
def Conn.exec (c : Conn) (f : DB → DB) : Conn := { c with working := f c.working }

/-- The conn.commit() call: the working state becomes durable. -/
def Conn.commit (c : Conn) : Conn := { c with durable := c.working }

/-- The conn.rollback() call: uncommitted changes are discarded. -/
def Conn.rollback (c : Conn) : Conn := { c with working := c.durable }

/-- The conn.close() call: an open (uncommitted) transaction is rolled back, so the
state that survives is the durable one. -/
def Conn.close (c : Conn) : DB := c.durable

/-! ## SQL statements used by the Python functions, as pure updates/queries -/

/-- INSERT INTO Books (title, author, year, available) VALUES (?, ?, ?, 1) -/
def insertBookRow (title author : String) (year : Option Int) (d : DB) : DB :=
  { d with
    books := d.books ++ [⟨d.nextBookId, title, author, year, 1⟩],
    nextBookId := d.nextBookId + 1 }

/-- Row effect of UPDATE Books SET available = ? WHERE book_id = ? -/
def setFn (book_id : Nat) (available : Int) (b : Book) : Book :=
  if b.book_id == book_id then { b with available := available } else b

/-- UPDATE Books SET available = ? WHERE book_id = ? -/
def setAvailability (book_id : Nat) (available : Int) (d : DB) : DB :=
  { d with books := d.books.map (setFn book_id available) }

/-- Row effect of UPDATE Books SET available = 0 WHERE book_id = ? AND available = 1 -/
def flipFn (book_id : Nat) (b : Book) : Book :=
  if b.book_id == book_id && b.available == 1 then { b with available := 0 } else b

/-- UPDATE Books SET available = 0 WHERE book_id = ? AND available = 1 -/
def flipToUnavailable (book_id : Nat) (d : DB) : DB :=
  { d with books := d.books.map (flipFn book_id) }

/-- Row effect of UPDATE Books SET available = 1 WHERE book_id = ? -/
def markFn (book_id : Nat) (b : Book) : Book :=
  if b.book_id == book_id then { b with available := 1 } else b

/-- UPDATE Books SET available = 1 WHERE book_id = ? -/
def markAvailable (book_id : Nat) (d : DB) : DB :=
  { d with books := d.books.map (markFn book_id) }

/-- DELETE FROM Books WHERE book_id = ? -/
def deleteBookRow (book_id : Nat) (d : DB) : DB :=
  { d with books := d.books.filter (fun b => !(b.book_id == book_id)) }

/-- INSERT INTO Users (name, phone, email) VALUES (?, ?, ?) -/
def insertUserRow (name : String) (phone email : Option String) (d : DB) : DB :=
  { d with
    users := d.users ++ [⟨d.nextUserId, name, phone, email⟩],
    nextUserId := d.nextUserId + 1 }

/-- DELETE FROM Users WHERE user_id = ? -/
def deleteUserRow (user_id : Nat) (d : DB) : DB :=
  { d with users := d.users.filter (fun u => !(u.user_id == user_id)) }

/-- INSERT INTO Borrow (book_id, user_id, borrow_date, return_date)
    VALUES (?, ?, ?, NULL) -/
def insertBorrowRow (book_id user_id : Nat) (borrow_date : String) (d : DB) : DB :=
  { d with
    borrows := d.borrows ++ [⟨d.nextBorrowId, book_id, user_id, borrow_date, none⟩],
    nextBorrowId := d.nextBorrowId + 1 }

/-- An open (active) borrow row for the given borrow_id:
    borrow_id = ? AND return_date IS NULL -/
def activePred (borrow_id : Nat) (r : BorrowRow) : Bool :=
  r.borrow_id == borrow_id && r.return_date.isNone

/-- Row effect of UPDATE Borrow SET return_date = ? WHERE borrow_id = ?
    AND return_date IS NULL -/
def closeFn (borrow_id : Nat) (return_date : String) (r : BorrowRow) : BorrowRow :=
  if activePred borrow_id r then { r with return_date := some return_date } else r

/-- UPDATE Borrow SET return_date = ? WHERE borrow_id = ? AND return_date IS NULL -/
def closeBorrowRow (borrow_id : Nat) (return_date : String) (d : DB) : DB :=
  { d with borrows := d.borrows.map (closeFn borrow_id return_date) }

/-! ## src/books.py -/

/-- Function add_book(title, author, year) in src/books.py: insert the row with
available = 1, commit, return the new rowid. -/
def add_book (db : DB) (title author : String) (year : Option Int) : Nat × DB :=
  let c := get_connection db
  let book_id := c.working.nextBookId
  let c := c.exec (insertBookRow title author year)
  let c := c.commit
  (book_id, c.close)

/-- Function update_book_availability(book_id, available) in src/books.py.
Raises ValueError (modelled as `Except.error`) before opening a connection
when `available` is not 0 or 1; otherwise performs the UPDATE, commits, and
returns whether any row was updated. -/
def update_book_availability (db : DB) (book_id : Nat) (available : Int) :
    Except String Bool × DB :=
  if available = 0 ∨ available = 1 then
    let c := get_connection db
    let rowcount := (c.working.books.filter (fun b => b.book_id == book_id)).length
    let c := c.exec (setAvailability book_id available)
    let c := c.commit
    (.ok (decide (0 < rowcount)), c.close)
  else
    (.error "available must be 0 or 1", db)

/-- Function delete_book(book_id) in src/books.py: blocked (returns False) when any
Borrow row references the book; otherwise DELETE, commit, and report whether
a row was deleted. -/
def delete_book (db : DB) (book_id : Nat) : Bool × DB :=
  let c := get_connection db
  let cnt := (c.working.borrows.filter (fun r => r.book_id == book_id)).length
  if 0 < cnt then
    (false, c.close)
  else
    let rowcount := (c.working.books.filter (fun b => b.book_id == book_id)).length
    let c := c.exec (deleteBookRow book_id)
    let c := c.commit
    (decide (0 < rowcount), c.close)

/-! ## src/users.py -/

/-- Function create_user(name, phone, email) in src/users.py.  The INSERT raises an
IntegrityError (modelled as `Except.error`) when a non-NULL email collides
with an existing row (Users.email is UNIQUE); nothing was committed, so the
state is unchanged in that case. -/
def create_user (db : DB) (name : String) (phone email : Option String) :
    Except String Nat × DB :=
  let c := get_connection db
  if email.isSome && c.working.users.any (fun u => u.email == email) then
    (.error "UNIQUE constraint failed: Users.email", c.close)
  else
    let user_id := c.working.nextUserId
    let c := c.exec (insertUserRow name phone email)
    let c := c.commit
    (.ok user_id, c.close)

/-- Function delete_user(user_id) in src/users.py: blocked (returns False) when the
user has an active borrow (return_date IS NULL); otherwise DELETE, commit,
and report whether a row was deleted. -/
def delete_user (db : DB) (user_id : Nat) : Bool × DB :=
  let c := get_connection db
  let active_count :=
    (c.working.borrows.filter (fun r => r.user_id == user_id && r.return_date.isNone)).length
  if 0 < active_count then
    (false, c.close)
  else
    let rowcount := (c.working.users.filter (fun u => u.user_id == user_id)).length
    let c := c.exec (deleteUserRow user_id)
    let c := c.commit
    (decide (0 < rowcount), c.close)

/-! ## src/borrow.py -/

/-- Function borrow_book(user_id, book_id, borrow_date) in src/borrow.py.
Checks that the user exists, performs the atomic conditional UPDATE on
Books, rejects (returns `none`) when its rowcount is 0, otherwise inserts
the open Borrow row, commits, and returns the new borrow_id. -/
def borrow_book (db : DB) (user_id book_id : Nat) (borrow_date : String) :
    Option Nat × DB :=
  let c := get_connection db
  if !(c.working.users.any (fun u => u.user_id == user_id)) then
    (none, c.close)
  else
    let rowcount :=
      (c.working.books.filter (fun b => b.book_id == book_id && b.available == 1)).length
    let c := c.exec (flipToUnavailable book_id)
    if rowcount == 0 then
      (none, c.close)
    else
      let borrow_id := c.working.nextBorrowId
      let c := c.exec (insertBorrowRow book_id user_id borrow_date)
      let c := c.commit
      (some borrow_id, c.close)

/-- Variant of borrow_book where the INSERT INTO Borrow raises a storage failure after
the availability UPDATE already succeeded: the except-branch runs
`conn.rollback()` (discarding the uncommitted UPDATE) and re-raises, and the
finally-branch closes the connection. -/
def borrow_book_insert_failure (db : DB) (user_id book_id : Nat) (borrow_date : String) :
    Except String (Option Nat) × DB :=
  let c := get_connection db
  if !(c.working.users.any (fun u => u.user_id == user_id)) then
    (.ok none, c.close)
  else
    let rowcount :=
      (c.working.books.filter (fun b => b.book_id == book_id && b.available == 1)).length
    let c := c.exec (flipToUnavailable book_id)
    if rowcount == 0 then
      (.ok none, c.close)
    else
      let c := c.rollback
      (.error "storage failure during INSERT INTO Borrow", c.close)

/-- Function return_book(borrow_id, return_date) in src/borrow.py.
Finds the active borrow row (SELECT ... WHERE return_date IS NULL), returns
False when there is none, otherwise closes it with the guarded UPDATE,
then marks the referenced book available again (without inspecting that
rowcount of that UPDATE), commits, and returns True. -/
def return_book (db : DB) (borrow_id : Nat) (return_date : String) : Bool × DB :=
  let c := get_connection db
  match c.working.borrows.find? (activePred borrow_id) with
  | none => (false, c.close)
  | some row =>
    let book_id := row.book_id
    let rowcount := (c.working.borrows.filter (activePred borrow_id)).length
    let c := c.exec (closeBorrowRow borrow_id return_date)
    if rowcount == 0 then
      (false, c.close)
    else
      let c := c.exec (markAvailable book_id)
      let c := c.commit
      (true, c.close)

/-! ## src/reports.py -/

/-- The rows of `FROM Borrow AS b JOIN Books AS bk ON bk.book_id = b.book_id`,
projected to (title, author). -/
def joinRows (db : DB) : List (String × String) :=
  db.borrows.flatMap (fun r =>
    (db.books.filter (fun b => b.book_id == r.book_id)).map (fun b => (b.title, b.author)))

/-- One output row of `most_borrowed_books`. -/
structure ReportRow where
  title : String
  author : String
  borrow_count : Nat
deriving Repr, DecidableEq

/-- The size of one GROUP BY (title, author) group: how many joined rows
carry this (title, author) key. -/
def groupCount (db : DB) (k : String × String) : Nat :=
  ((joinRows db).filter (fun p => p.1 == k.1 && p.2 == k.2)).length

/-- Function most_borrowed_books() in src/reports.py: GROUP the joined rows BY
(title, author), COUNT each group, ORDER BY borrow_count DESC. -/
def most_borrowed_books (db : DB) : List ReportRow :=
  (((joinRows db).dedup).map (fun k => ⟨k.1, k.2, groupCount db k⟩)).mergeSort
    (fun a b => b.borrow_count ≤ a.borrow_count)

/-! ## Derived notions used by the statements -/

/-- Number of open (return_date IS NULL) borrow rows referencing a book copy. -/
def openCount (db : DB) (book_id : Nat) : Nat :=
  (db.borrows.filter (fun r => r.book_id == book_id && r.return_date.isNone)).length

/-- The available flag of the (first) Books row with the given book_id. -/
def bookAvail (db : DB) (book_id : Nat) : Option Int :=
  (db.books.find? (fun b => b.book_id == book_id)).map (fun b => b.available)

/-- The consistency invariant of the ledger, strengthened so that it is
inductive for the public operations: every copy has at most one open borrow,
an available copy has no open borrow, and the AUTOINCREMENT counter bounds
every book_id in use. -/
structure LedgerInv (db : DB) : Prop where
  atMostOne : ∀ bid, openCount db bid ≤ 1
  availNoOpen : ∀ b ∈ db.books, b.available = 1 → openCount db b.book_id = 0
  bookIdLt : ∀ b ∈ db.books, b.book_id < db.nextBookId
  borrowIdLt : ∀ r ∈ db.borrows, r.book_id < db.nextBookId

/-- One call of a mutating public operation other than the administrative
availability override. -/
inductive LibStep : DB → DB → Prop where
  | addBook (db : DB) (t a : String) (y : Option Int) : LibStep db (add_book db t a y).2
  | delBook (db : DB) (bid : Nat) : LibStep db (delete_book db bid).2
  | newUser (db : DB) (n : String) (p e : Option String) : LibStep db (create_user db n p e).2
  | delUser (db : DB) (uid : Nat) : LibStep db (delete_user db uid).2
  | borrow (db : DB) (uid bid : Nat) (d : String) : LibStep db (borrow_book db uid bid d).2
  | giveBack (db : DB) (bor : Nat) (d : String) : LibStep db (return_book db bor d).2

/-- One call of any mutating public operation, the administrative
`update_book_availability` included. -/
inductive AdminStep : DB → DB → Prop where
  | lib {db db' : DB} : LibStep db db' → AdminStep db db'
  | updateAvail (db : DB) (bid : Nat) (a : Int) :
      AdminStep db (update_book_availability db bid a).2

/-- States reachable from the freshly initialised database by a sequence of
steps of the given step relation. -/
inductive ReachVia (S : DB → DB → Prop) : DB → Prop where
  | init : ReachVia S init_db
  | step : ∀ {db db' : DB}, ReachVia S db → S db db' → ReachVia S db'

/-! ## Concrete states used by counterexamples and witnesses -/

/-- End state of: create_user, add_book, borrow_book, then the
administrative availability override back to 1, then borrow_book again on
the same copy. -/
def cexDB : DB :=
  (borrow_book (update_book_availability (borrow_book (add_book
      (create_user init_db "u" none none).2 "T" "A" none).2
    1 1 "2025-01-01").2 1 1).2 1 1 "2025-01-02").2

/-- A store holding one open borrow row whose book_id resolves to no Books
row (the situation claim C2 is about: the availability UPDATE inside
return_book matches zero rows). -/
def orphanDB : DB := ⟨[], [], [⟨1, 5, 1, "2025-01-01", none⟩], 1, 1, 2⟩

/-- A small store with one user and one available book. -/
def demoDB : DB := (add_book (create_user init_db "u" none none).2 "T" "A" none).2

/-- State demoDB after user 1 borrowed book 1. -/
def borrowedDB : DB := (borrow_book demoDB 1 1 "2025-01-01").2

/-- State borrowedDB after the borrow was returned. -/
def returnedDB : DB := (return_book borrowedDB 1 "2025-01-02").2

/-- A store with two copies of the same title and author, each borrowed
once: create_user, add_book twice, borrow copy 1, borrow copy 2. -/
def twoCopyDB : DB :=
  (borrow_book (borrow_book (add_book (add_book (create_user init_db "u" none none).2
    "T" "A" none).2 "T" "A" none).2 1 1 "2025-01-01").2 1 2 "2025-01-02").2

/-- The borrow / return-on-the-returned-id / borrow-again sequence of claim
C6, with all three intermediate results. -/
def roundTrip (db : DB) (uid bid : Nat) (d1 d2 d3 : String) :
    (Option Nat × DB) × (Bool × DB) × (Option Nat × DB) :=
  let s1 := borrow_book db uid bid d1
  let s2 := return_book s1.2 (s1.1.getD 0) d2
  let s3 := borrow_book s2.2 uid bid d3
  (s1, s2, s3)

/-! # Basic lemmas about the row updates -/

theorem flipFn_book_id (bid : Nat) (b : Book) : (flipFn bid b).book_id = b.book_id := by
  unfold flipFn; split <;> rfl

theorem markFn_book_id (bid : Nat) (b : Book) : (markFn bid b).book_id = b.book_id := by
  unfold markFn; split <;> rfl

theorem closeFn_book_id (bor : Nat) (d : String) (r : BorrowRow) :
    (closeFn bor d r).book_id = r.book_id := by
  unfold closeFn; split <;> rfl

theorem closeFn_not_active (bor : Nat) (d : String) (r : BorrowRow) :
    activePred bor (closeFn bor d r) = false := by
  unfold closeFn
  split
  · simp [activePred]
  · simp_all

theorem openCount_flip (bid : Nat) (d : DB) (x : Nat) :
    openCount (flipToUnavailable bid d) x = openCount d x := rfl

theorem openCount_mark (bid : Nat) (d : DB) (x : Nat) :
    openCount (markAvailable bid d) x = openCount d x := rfl

theorem openCount_insertBorrow (bid uid : Nat) (date : String) (d : DB) (x : Nat) :
    openCount (insertBorrowRow bid uid date d) x
      = openCount d x + (if bid = x then 1 else 0) := by
  unfold openCount insertBorrowRow
  simp only [List.filter_append, List.length_append]
  by_cases h : bid = x <;> simp [h]

theorem filter_map_closeFn (l : List BorrowRow) (bor : Nat) (date : String) (x : Nat) :
    (l.map (closeFn bor date)).filter (fun r => r.book_id == x && r.return_date.isNone)
      = l.filter (fun r => (r.book_id == x && r.return_date.isNone) && !(r.borrow_id == bor)) := by
  induction l with
  | nil => rfl
  | cons r l ih =>
    cases h1 : r.borrow_id == bor <;> cases h2 : r.return_date.isNone <;>
      simp [closeFn, activePred, h1, h2, List.filter_cons, ih]

theorem length_filter_and_le {α : Type} (p q : α → Bool) (l : List α) :
    (l.filter (fun a => p a && q a)).length ≤ (l.filter p).length := by
  induction l with
  | nil => exact Nat.le_refl 0
  | cons a l ih =>
    cases hp : p a <;> cases hq : q a <;> simp [List.filter_cons, hp, hq] <;> omega

theorem mem_eq_of_length_le_one {α : Type} {l : List α} (h : l.length ≤ 1) :
    ∀ {a b : α}, a ∈ l → b ∈ l → a = b := by
  match l with
  | [] => intro a b ha _; cases ha
  | [x] =>
    intro a b ha hb
    rw [List.mem_singleton] at ha hb
    rw [ha, hb]
  | x :: y :: t => simp at h

/-! # Branch shapes of the operations -/

theorem borrow_book_reject_user (db : DB) (uid bid : Nat) (date : String)
    (h : db.users.any (fun u => u.user_id == uid) = false) :
    borrow_book db uid bid date = (none, db) := by
  unfold borrow_book get_connection Conn.exec Conn.close
  simp [h]

theorem borrow_book_reject_unavailable (db : DB) (uid bid : Nat) (date : String)
    (h : (db.books.filter (fun b => b.book_id == bid && b.available == 1)).length = 0) :
    borrow_book db uid bid date = (none, db) := by
  unfold borrow_book get_connection Conn.exec Conn.close
  cases hu : db.users.any (fun u => u.user_id == uid) <;> simp [hu, h]

theorem borrow_book_success (db : DB) (uid bid : Nat) (date : String)
    (hu : db.users.any (fun u => u.user_id == uid) = true)
    (hc : (db.books.filter (fun b => b.book_id == bid && b.available == 1)).length ≠ 0) :
    borrow_book db uid bid date
      = (some db.nextBorrowId, insertBorrowRow bid uid date (flipToUnavailable bid db)) := by
  unfold borrow_book get_connection Conn.exec Conn.commit Conn.close
  simp [hu, hc]
  rfl

theorem return_book_none (db : DB) (bor : Nat) (date : String)
    (h : db.borrows.find? (activePred bor) = none) :
    return_book db bor date = (false, db) := by
  unfold return_book get_connection Conn.exec Conn.commit Conn.close
  dsimp only
  rw [h]

theorem return_book_found (db : DB) (bor : Nat) (date : String) (row : BorrowRow)
    (h : db.borrows.find? (activePred bor) = some row) :
    return_book db bor date
      = (true, markAvailable row.book_id (closeBorrowRow bor date db)) := by
  have hmem : row ∈ db.borrows := List.mem_of_find?_eq_some h
  have hact : activePred bor row = true := List.find?_some h
  have hin : row ∈ db.borrows.filter (activePred bor) := List.mem_filter.mpr ⟨hmem, hact⟩
  have hne0 : (db.borrows.filter (activePred bor)).length ≠ 0 := by
    intro h0
    rw [List.length_eq_zero] at h0
    rw [h0] at hin
    cases hin
  have hne : ((db.borrows.filter (activePred bor)).length == 0) = false := by
    simpa using hne0
  unfold return_book get_connection Conn.exec Conn.commit Conn.close
  dsimp only
  rw [h, hne]
  rfl

/-! # Claims -/

/-- C9: every book copy created by add_book starts with available = 1,
regardless of the title, author, and year arguments; the new row id is
returned, so a freshly added copy is immediately borrowable. -/
theorem C9_add_book_available_one (db : DB) (t a : String) (y : Option Int) :
    add_book db t a y = (db.nextBookId,
      { db with books := db.books ++ [⟨db.nextBookId, t, a, y, 1⟩],
                nextBookId := db.nextBookId + 1 }) := rfl

/-- C2 (evidence of the code bug): on a store where the single open borrow
row references a book_id with no Books row, return_book closes the record,
the availability UPDATE matches zero rows, and the call still commits and
returns True — it does not surface any error. -/
theorem C2_return_book_silent_true :
    (return_book orphanDB 1 "2025-02-01").1 = true ∧
    (return_book orphanDB 1 "2025-02-01").2
      = { orphanDB with borrows := [⟨1, 5, 1, "2025-01-01", some "2025-02-01"⟩] } ∧
    (return_book orphanDB 1 "2025-02-01").2.books = [] := by
  refine ⟨rfl, by decide, rfl⟩

/-- C3: when the INSERT INTO Borrow fails after the availability flip
already succeeded (user exists, copy available), the whole operation is
rolled back before the error propagates: the resulting durable state is
exactly the initial one (flag restored, no borrow row created). -/
theorem C3_rollback_on_insert_failure (db : DB) (uid bid : Nat) (date : String)
    (hu : db.users.any (fun u => u.user_id == uid) = true)
    (hc : (db.books.filter (fun b => b.book_id == bid && b.available == 1)).length ≠ 0) :
    borrow_book_insert_failure db uid bid date
      = (.error "storage failure during INSERT INTO Borrow", db) := by
  unfold borrow_book_insert_failure get_connection Conn.exec Conn.rollback Conn.close
  simp [hu, hc]

/-- Witness for C3 at a concrete store with one user and one available book. -/
theorem C3_witness :
    borrow_book_insert_failure demoDB 1 1 "2025-01-01"
      = (.error "storage failure during INSERT INTO Borrow", demoDB) :=
  C3_rollback_on_insert_failure demoDB 1 1 "2025-01-01" (by decide) (by decide)

/-- C10: update_book_availability raises ValueError for every argument other
than 0 or 1 leaving the state unchanged; for 0 or 1 it never raises, applies
the UPDATE, and returns ok true exactly when a Books row with that book_id
exists. -/
theorem C10_update_availability (db : DB) (bid : Nat) (a : Int) :
    (¬ (a = 0 ∨ a = 1) →
        update_book_availability db bid a = (.error "available must be 0 or 1", db)) ∧
    ((a = 0 ∨ a = 1) →
        (update_book_availability db bid a).2 = setAvailability bid a db ∧
        (update_book_availability db bid a).1
          = .ok (decide (0 < (db.books.filter (fun b => b.book_id == bid)).length)) ∧
        ((update_book_availability db bid a).1 = .ok true ↔
          ∃ b ∈ db.books, b.book_id = bid)) := by
  constructor
  · intro h
    unfold update_book_availability
    rw [if_neg h]
  · intro h
    unfold update_book_availability get_connection Conn.exec Conn.commit Conn.close
    rw [if_pos h]
    refine ⟨rfl, rfl, ?_⟩
    dsimp only
    simp [List.length_pos_iff_exists_mem, List.mem_filter]

/-- Witness for C10: a non-{0,1} argument errors and leaves the concrete
store unchanged; a valid argument reports whether the book exists. -/
theorem C10_witness :
    update_book_availability demoDB 1 5 = (.error "available must be 0 or 1", demoDB) ∧
    (update_book_availability demoDB 1 0).1 = .ok true := by
  constructor
  · exact (C10_update_availability demoDB 1 5).1 (by decide)
  · exact ((C10_update_availability demoDB 1 0).2 (Or.inl rfl)).2.2.mpr (by decide)

/-- C4: borrow_book returns the rejection value none, with the store left
completely unchanged, whenever the member does not exist or no row for the
copy is available; on success it returns the rowid of the newly inserted
borrow record and performs exactly the flip plus the insert. -/
theorem C4_borrow_preconditions (db : DB) (uid bid : Nat) (date : String) :
    (((¬ ∃ u ∈ db.users, u.user_id = uid) ∨
        ∀ b ∈ db.books, b.book_id = bid → b.available ≠ 1) →
      borrow_book db uid bid date = (none, db)) ∧
    ((∃ u ∈ db.users, u.user_id = uid) →
      (∃ b ∈ db.books, b.book_id = bid ∧ b.available = 1) →
      borrow_book db uid bid date
        = (some db.nextBorrowId, insertBorrowRow bid uid date (flipToUnavailable bid db))) := by
  constructor
  · rintro (h | h)
    · apply borrow_book_reject_user
      simp only [List.any_eq_false, beq_iff_eq]
      rintro u hu rfl
      exact h ⟨u, hu, rfl⟩
    · apply borrow_book_reject_unavailable
      rw [List.length_eq_zero]
      apply List.filter_eq_nil_iff.mpr
      rintro b hb hcond
      rw [Bool.and_eq_true, beq_iff_eq, beq_iff_eq] at hcond
      exact h b hb hcond.1 hcond.2
  · rintro ⟨u, hu, hid⟩ ⟨b, hb, hbid, hav⟩
    apply borrow_book_success
    · exact List.any_eq_true.mpr ⟨u, hu, by simp [hid]⟩
    · have : b ∈ db.books.filter (fun b => b.book_id == bid && b.available == 1) :=
        List.mem_filter.mpr ⟨hb, by simp [hbid, hav]⟩
      intro h0
      rw [List.length_eq_zero] at h0
      rw [h0] at this
      cases this

/-- Witness for C4: user 2 does not exist in the concrete store, so
borrowing rejects and changes nothing; user 1 borrowing the available copy
succeeds with the next rowid. -/
theorem C4_witness :
    borrow_book demoDB 2 1 "2025-01-01" = (none, demoDB) ∧
    borrow_book demoDB 1 1 "2025-01-01"
      = (some demoDB.nextBorrowId,
         insertBorrowRow 1 1 "2025-01-01" (flipToUnavailable 1 demoDB)) := by
  constructor
  · exact (C4_borrow_preconditions demoDB 2 1 "2025-01-01").1 (Or.inl (by decide))
  · exact (C4_borrow_preconditions demoDB 1 1 "2025-01-01").2 (by decide) (by decide)

/-- C7: delete_book refuses (returning False, store unchanged) when any
borrow row, open or closed, references the copy; with no referencing borrow
row it performs the DELETE and returns True exactly when the copy existed. -/
theorem C7_delete_book (db : DB) (bid : Nat) :
    ((∃ r ∈ db.borrows, r.book_id = bid) → delete_book db bid = (false, db)) ∧
    ((∀ r ∈ db.borrows, r.book_id ≠ bid) →
      (delete_book db bid).2 = deleteBookRow bid db ∧
      ((delete_book db bid).1 = true ↔ ∃ b ∈ db.books, b.book_id = bid)) := by
  constructor
  · rintro ⟨r, hr, hrid⟩
    unfold delete_book get_connection Conn.exec Conn.commit Conn.close
    dsimp only
    rw [if_pos]
    exact List.length_pos_iff_exists_mem.mpr ⟨r, List.mem_filter.mpr ⟨hr, by simp [hrid]⟩⟩
  · intro h
    have hnil : db.borrows.filter (fun r => r.book_id == bid) = [] := by
      apply List.filter_eq_nil_iff.mpr
      intro r hr hcond
      exact h r hr (beq_iff_eq.mp hcond)
    unfold delete_book get_connection Conn.exec Conn.commit Conn.close
    dsimp only
    rw [hnil]
    rw [if_neg (by simp)]
    refine ⟨rfl, ?_⟩
    simp [List.length_pos_iff_exists_mem, List.mem_filter]

/-- Witness for C7: deleting the borrowed copy in the concrete store is
rejected and changes nothing; deleting the never-borrowed copy succeeds. -/
theorem C7_witness :
    delete_book borrowedDB 1 = (false, borrowedDB) ∧ (delete_book demoDB 1).1 = true := by
  constructor
  · exact (C7_delete_book borrowedDB 1).1 (by decide)
  · exact ((C7_delete_book demoDB 1).2 (by decide)).2.mpr (by decide)

/-- C5: return_book returns False and leaves the store untouched whenever
the borrow id does not resolve to an open record; in particular a second
return_book call after a successful one returns False and changes nothing,
so the return_date written by the first call and the availability flag
survive unchanged. -/
theorem C5_double_return (db : DB) (bor : Nat) (d1 d2 : String) :
    (db.borrows.find? (activePred bor) = none → return_book db bor d1 = (false, db)) ∧
    (∀ db1 : DB, return_book db bor d1 = (true, db1) →
      return_book db1 bor d2 = (false, db1)) := by
  constructor
  · intro h
    exact return_book_none db bor d1 h
  · intro db1 h
    cases hf : db.borrows.find? (activePred bor) with
    | none =>
      rw [return_book_none db bor d1 hf] at h
      cases h
    | some row =>
      rw [return_book_found db bor d1 row hf] at h
      have hdb1 : db1 = markAvailable row.book_id (closeBorrowRow bor d1 db) := by
        injection h with h1 h2
        exact h2.symm
      apply return_book_none
      have : db1.borrows = db.borrows.map (closeFn bor d1) := by rw [hdb1]; rfl
      rw [this]
      apply List.find?_eq_none.mpr
      intro r' hr'
      obtain ⟨r0, _, rfl⟩ := List.mem_map.mp hr'
      simp [closeFn_not_active]

/-- Witness for C5: returning borrow id 1 on the empty store rejects; after
the successful return in the concrete store, a second return of the same id
returns False and leaves the state as the first return left it. -/
theorem C5_witness :
    return_book init_db 1 "2025-02-01" = (false, init_db) ∧
    return_book returnedDB 1 "2025-02-02" = (false, returnedDB) := by
  constructor
  · exact (C5_double_return init_db 1 "2025-02-01" "x").1 rfl
  · exact (C5_double_return borrowedDB 1 "2025-01-02" "2025-02-02").2 returnedDB (by decide)

/-! # The ledger invariant and its preservation -/

theorem ledgerInv_init : LedgerInv init_db := by
  refine ⟨fun bid => ?_, ?_, ?_, ?_⟩ <;> simp [openCount, init_db]

theorem ledgerInv_insertBook (db : DB) (t a : String) (y : Option Int)
    (h : LedgerInv db) : LedgerInv (insertBookRow t a y db) := by
  have hoc : ∀ x, openCount (insertBookRow t a y db) x = openCount db x := fun _ => rfl
  refine ⟨fun bid => hoc bid ▸ h.atMostOne bid, ?_, ?_, ?_⟩
  · intro b hb hav
    rw [hoc]
    rcases List.mem_append.mp hb with hb | hb
    · exact h.availNoOpen b hb hav
    · rw [List.mem_singleton] at hb
      subst hb
      rw [openCount, List.length_eq_zero]
      apply List.filter_eq_nil_iff.mpr
      intro r hr hcond
      rw [Bool.and_eq_true, beq_iff_eq] at hcond
      exact absurd hcond.1 (Nat.ne_of_lt (h.borrowIdLt r hr))
  · intro b hb
    rcases List.mem_append.mp hb with hb | hb
    · exact Nat.lt_succ_of_lt (h.bookIdLt b hb)
    · rw [List.mem_singleton] at hb
      subst hb
      exact Nat.lt_succ_self _
  · intro r hr
    exact Nat.lt_succ_of_lt (h.borrowIdLt r hr)

theorem ledgerInv_deleteBookRow (db : DB) (bid : Nat)
    (h : LedgerInv db) : LedgerInv (deleteBookRow bid db) := by
  refine ⟨h.atMostOne, ?_, ?_, h.borrowIdLt⟩
  · intro b hb hav
    exact h.availNoOpen b (List.mem_of_mem_filter hb) hav
  · intro b hb
    exact h.bookIdLt b (List.mem_of_mem_filter hb)

theorem ledgerInv_insertUser (db : DB) (n : String) (p e : Option String)
    (h : LedgerInv db) : LedgerInv (insertUserRow n p e db) :=
  ⟨h.atMostOne, h.availNoOpen, h.bookIdLt, h.borrowIdLt⟩

theorem ledgerInv_deleteUser (db : DB) (uid : Nat)
    (h : LedgerInv db) : LedgerInv (deleteUserRow uid db) :=
  ⟨h.atMostOne, h.availNoOpen, h.bookIdLt, h.borrowIdLt⟩

theorem ledgerInv_borrow_success (db : DB) (uid bid : Nat) (date : String)
    (h : LedgerInv db)
    (hc : (db.books.filter (fun b => b.book_id == bid && b.available == 1)).length ≠ 0) :
    LedgerInv (insertBorrowRow bid uid date (flipToUnavailable bid db)) := by
  obtain ⟨b0, hb0⟩ := List.length_pos_iff_exists_mem.mp (Nat.pos_of_ne_zero hc)
  obtain ⟨hb0m, hb0c⟩ := List.mem_filter.mp hb0
  rw [Bool.and_eq_true, beq_iff_eq, beq_iff_eq] at hb0c
  obtain ⟨hb0id, hb0av⟩ := hb0c
  have h0 : openCount db bid = 0 := hb0id ▸ h.availNoOpen b0 hb0m hb0av
  have hoc : ∀ x, openCount (insertBorrowRow bid uid date (flipToUnavailable bid db)) x
      = openCount db x + (if bid = x then 1 else 0) := fun x =>
    openCount_insertBorrow bid uid date (flipToUnavailable bid db) x
  refine ⟨?_, ?_, ?_, ?_⟩
  · intro x
    rw [hoc]
    by_cases hx : bid = x
    · subst hx
      rw [h0]
      simp
    · rw [if_neg hx]
      exact Nat.le_trans (Nat.le_of_eq (Nat.add_zero _)) (h.atMostOne x)
  · intro b hb hav
    obtain ⟨b1, hb1m, rfl⟩ := List.mem_map.mp hb
    rw [hoc]
    by_cases hcond : (b1.book_id == bid && b1.available == 1) = true
    · rw [flipFn, if_pos hcond] at hav
      cases hav
    · rw [flipFn, if_neg hcond] at hav ⊢
      have hne : b1.book_id ≠ bid := by
        intro he
        apply hcond
        rw [Bool.and_eq_true, beq_iff_eq, beq_iff_eq]
        exact ⟨he, hav⟩
      rw [if_neg (fun he => hne he.symm), h.availNoOpen b1 hb1m hav]
  · intro b hb
    obtain ⟨b1, hb1m, rfl⟩ := List.mem_map.mp hb
    rw [flipFn_book_id]
    exact h.bookIdLt b1 hb1m
  · intro r hr
    rcases List.mem_append.mp hr with hr | hr
    · exact h.borrowIdLt r hr
    · rw [List.mem_singleton] at hr
      subst hr
      exact hb0id ▸ h.bookIdLt b0 hb0m

theorem ledgerInv_return_success (db : DB) (bor : Nat) (date : String) (row : BorrowRow)
    (h : LedgerInv db)
    (hf : db.borrows.find? (activePred bor) = some row) :
    LedgerInv (markAvailable row.book_id (closeBorrowRow bor date db)) := by
  have hmem : row ∈ db.borrows := List.mem_of_find?_eq_some hf
  have hact : activePred bor row = true := List.find?_some hf
  rw [activePred, Bool.and_eq_true, beq_iff_eq] at hact
  obtain ⟨hrbor, hropen⟩ := hact
  have hkey : ∀ x, openCount (markAvailable row.book_id (closeBorrowRow bor date db)) x
      = (db.borrows.filter
          (fun r => (r.book_id == x && r.return_date.isNone) && !(r.borrow_id == bor))).length := by
    intro x
    rw [show openCount (markAvailable row.book_id (closeBorrowRow bor date db)) x
        = ((db.borrows.map (closeFn bor date)).filter
            (fun r => r.book_id == x && r.return_date.isNone)).length from rfl]
    rw [filter_map_closeFn]
  have hle : ∀ x, openCount (markAvailable row.book_id (closeBorrowRow bor date db)) x
      ≤ openCount db x := by
    intro x
    rw [hkey, openCount]
    exact length_filter_and_le _ _ _
  have hrow_in : row ∈ db.borrows.filter
      (fun r => r.book_id == row.book_id && r.return_date.isNone) :=
    List.mem_filter.mpr ⟨hmem, by simp [hropen]⟩
  have hB : openCount (markAvailable row.book_id (closeBorrowRow bor date db)) row.book_id
      = 0 := by
    rw [hkey, List.length_eq_zero]
    apply List.filter_eq_nil_iff.mpr
    intro r hr hcond
    rw [Bool.and_eq_true, Bool.not_eq_true'] at hcond
    obtain ⟨hopen, hnbor⟩ := hcond
    have hrin : r ∈ db.borrows.filter
        (fun r => r.book_id == row.book_id && r.return_date.isNone) :=
      List.mem_filter.mpr ⟨hr, hopen⟩
    have : r = row := mem_eq_of_length_le_one (h.atMostOne row.book_id) hrin hrow_in
    subst this
    rw [hrbor] at hnbor
    simp at hnbor
  refine ⟨fun x => Nat.le_trans (hle x) (h.atMostOne x), ?_, ?_, ?_⟩
  · intro b hb hav
    obtain ⟨b1, hb1m, rfl⟩ := List.mem_map.mp hb
    by_cases hcond : (b1.book_id == row.book_id) = true
    · rw [markFn_book_id, beq_iff_eq.mp hcond]
      exact hB
    · rw [markFn, if_neg hcond] at hav
      rw [markFn, if_neg hcond]
      exact Nat.le_zero.mp (h.availNoOpen b1 hb1m hav ▸ hle b1.book_id)
  · intro b hb
    obtain ⟨b1, hb1m, rfl⟩ := List.mem_map.mp hb
    rw [markFn_book_id]
    exact h.bookIdLt b1 hb1m
  · intro r hr
    obtain ⟨r1, hr1m, rfl⟩ := List.mem_map.mp hr
    rw [closeFn_book_id]
    exact h.borrowIdLt r1 hr1m

theorem ledgerInv_libStep {db db' : DB} (h : LedgerInv db) (s : LibStep db db') :
    LedgerInv db' := by
  cases s with
  | addBook t a y => exact ledgerInv_insertBook db t a y h
  | delBook bid =>
    unfold delete_book get_connection Conn.exec Conn.commit Conn.close
    dsimp only
    split
    · exact h
    · exact ledgerInv_deleteBookRow db bid h
  | newUser n p e =>
    unfold create_user get_connection Conn.exec Conn.commit Conn.close
    dsimp only
    split
    · exact h
    · exact ledgerInv_insertUser db n p e h
  | delUser uid =>
    unfold delete_user get_connection Conn.exec Conn.commit Conn.close
    dsimp only
    split
    · exact h
    · exact ledgerInv_deleteUser db uid h
  | borrow uid bid d =>
    unfold borrow_book get_connection Conn.exec Conn.commit Conn.close
    dsimp only
    split
    · exact h
    · split
      · exact h
      · rename_i hc
        rw [Nat.beq_eq_true_eq] at hc
        exact ledgerInv_borrow_success db uid bid d h hc
  | giveBack bor d =>
    unfold return_book get_connection Conn.exec Conn.commit Conn.close
    dsimp only
    split
    · exact h
    · rename_i row hf
      split
      · exact h
      · exact ledgerInv_return_success db bor d row h hf

theorem ledgerInv_reachable {db : DB} (h : ReachVia LibStep db) : LedgerInv db := by
  induction h with
  | init => exact ledgerInv_init
  | step _ hs ih => exact ledgerInv_libStep ih hs

/-- C1 (amended): in every state reachable from the fresh store by any
sequence of create_user, delete_user, add_book, delete_book, borrow_book
and return_book calls, every book copy is referenced by at most one open
borrow record.  (The claim as stated, with update_book_availability among
the operations, is refuted by the counterexample theorem.) -/
theorem C1_at_most_one_open (db : DB) (h : ReachVia LibStep db) (bid : Nat) :
    openCount db bid ≤ 1 :=
  (ledgerInv_reachable h).atMostOne bid

/-- Witness for C1 (amended) at a concrete reachable state with an active
borrow. -/
theorem C1_witness : openCount borrowedDB 1 ≤ 1 :=
  C1_at_most_one_open borrowedDB
    (ReachVia.step
      (ReachVia.step
        (ReachVia.step ReachVia.init (LibStep.newUser init_db "u" none none))
        (LibStep.addBook (create_user init_db "u" none none).2 "T" "A" none))
      (LibStep.borrow demoDB 1 1 "2025-01-01")) 1

/-- C1 (counterexample to the claim as stated): with the public operation
update_book_availability among the allowed calls, the sequence create_user,
add_book, borrow_book, update_book_availability(1, 1), borrow_book reaches
a state in which two open borrow records reference book copy 1. -/
theorem C1_counterexample : ReachVia AdminStep cexDB ∧ openCount cexDB 1 = 2 := by
  constructor
  · exact ReachVia.step
      (ReachVia.step
        (ReachVia.step
          (ReachVia.step
            (ReachVia.step ReachVia.init
              (AdminStep.lib (LibStep.newUser init_db "u" none none)))
            (AdminStep.lib (LibStep.addBook (create_user init_db "u" none none).2
              "T" "A" none)))
          (AdminStep.lib (LibStep.borrow
            (add_book (create_user init_db "u" none none).2 "T" "A" none).2
            1 1 "2025-01-01")))
        (AdminStep.updateAvail
          (borrow_book (add_book (create_user init_db "u" none none).2 "T" "A" none).2
            1 1 "2025-01-01").2 1 1))
      (AdminStep.lib (LibStep.borrow
        (update_book_availability
          (borrow_book (add_book (create_user init_db "u" none none).2 "T" "A" none).2
            1 1 "2025-01-01").2 1 1).2 1 1 "2025-01-02"))
  · decide

/-! # The borrow / return / borrow round trip -/

theorem length_ne_zero_of_mem {α : Type} {l : List α} {a : α} (h : a ∈ l) :
    l.length ≠ 0 := by
  intro h0
  rw [List.length_eq_zero] at h0
  rw [h0] at h
  cases h

theorem find?_books_map (f : Book → Book) (hf : ∀ b, (f b).book_id = b.book_id)
    (l : List Book) (bid : Nat) :
    (l.map f).find? (fun b => b.book_id == bid)
      = (l.find? (fun b => b.book_id == bid)).map f := by
  rw [List.find?_map]
  have hpf : ((fun b => b.book_id == bid) ∘ f) = (fun b => b.book_id == bid) :=
    funext fun b => by
      show ((f b).book_id == bid) = (b.book_id == bid)
      rw [hf]
  rw [hpf]

/-- C6: from any store holding the member and in which the row of the copy is
available (with the AUTOINCREMENT counter a genuine upper bound on the
borrow ids in use), borrow, then return on the id the borrow handed back,
then borrow again all succeed, and the available flag of the copy reads
1, 0, 1, 0 across the sequence. -/
theorem C6_round_trip (db : DB) (uid bid : Nat) (d1 d2 d3 : String)
    (hu : ∃ u ∈ db.users, u.user_id = uid)
    (hb : bookAvail db bid = some 1)
    (hfresh : ∀ r ∈ db.borrows, r.borrow_id < db.nextBorrowId) :
    ((roundTrip db uid bid d1 d2 d3).1.1 = some db.nextBorrowId ∧
     (roundTrip db uid bid d1 d2 d3).2.1.1 = true ∧
     (roundTrip db uid bid d1 d2 d3).2.2.1 = some (db.nextBorrowId + 1)) ∧
    (bookAvail db bid = some 1 ∧
     bookAvail (roundTrip db uid bid d1 d2 d3).1.2 bid = some 0 ∧
     bookAvail (roundTrip db uid bid d1 d2 d3).2.1.2 bid = some 1 ∧
     bookAvail (roundTrip db uid bid d1 d2 d3).2.2.2 bid = some 0) := by
  have huB : db.users.any (fun u => u.user_id == uid) = true := by
    obtain ⟨u, hm, he⟩ := hu
    exact List.any_eq_true.mpr ⟨u, hm, by simp [he]⟩
  obtain ⟨b0, hfind⟩ : ∃ b0, db.books.find? (fun b => b.book_id == bid) = some b0 := by
    unfold bookAvail at hb
    cases hx : db.books.find? (fun b => b.book_id == bid) with
    | none => rw [hx] at hb; cases hb
    | some b0 => exact ⟨b0, rfl⟩
  have hb0id0 := List.find?_some hfind
  have hb0id : (b0.book_id == bid) = true := hb0id0
  have hb0mem : b0 ∈ db.books := List.mem_of_find?_eq_some hfind
  have hav : b0.available = 1 := by
    unfold bookAvail at hb
    rw [hfind] at hb
    exact Option.some.inj hb
  have hcond : (b0.book_id == bid && b0.available == 1) = true := by
    simp [hb0id, hav]
  have hc1 : (db.books.filter (fun b => b.book_id == bid && b.available == 1)).length ≠ 0 :=
    length_ne_zero_of_mem (List.mem_filter.mpr ⟨hb0mem, hcond⟩)
  have step1 : borrow_book db uid bid d1
      = (some db.nextBorrowId, insertBorrowRow bid uid d1 (flipToUnavailable bid db)) :=
    borrow_book_success db uid bid d1 huB hc1
  have hfresh_none : db.borrows.find? (activePred db.nextBorrowId) = none := by
    apply List.find?_eq_none.mpr
    intro r hr hc
    unfold activePred at hc
    rw [Bool.and_eq_true, beq_iff_eq] at hc
    exact absurd hc.1 (Nat.ne_of_lt (hfresh r hr))
  have hf2 : (insertBorrowRow bid uid d1 (flipToUnavailable bid db)).borrows.find?
      (activePred db.nextBorrowId) = some ⟨db.nextBorrowId, bid, uid, d1, none⟩ := by
    show (db.borrows ++ [(⟨db.nextBorrowId, bid, uid, d1, none⟩ : BorrowRow)]).find?
        (activePred db.nextBorrowId)
      = some (⟨db.nextBorrowId, bid, uid, d1, none⟩ : BorrowRow)
    rw [List.find?_append, hfresh_none]
    simp [activePred]
  have step2 : return_book (insertBorrowRow bid uid d1 (flipToUnavailable bid db))
        db.nextBorrowId d2
      = (true, markAvailable bid (closeBorrowRow db.nextBorrowId d2
          (insertBorrowRow bid uid d1 (flipToUnavailable bid db)))) :=
    return_book_found _ _ _ _ hf2
  have hm1 : (markFn bid (flipFn bid b0)).available = 1 := by
    rw [markFn, if_pos]
    rw [flipFn_book_id]
    exact hb0id
  have hmem3 : markFn bid (flipFn bid b0)
      ∈ (db.books.map (flipFn bid)).map (markFn bid) :=
    List.mem_map_of_mem _ (List.mem_map_of_mem _ hb0mem)
  have hpred3 : ((markFn bid (flipFn bid b0)).book_id == bid
      && (markFn bid (flipFn bid b0)).available == 1) = true := by
    rw [Bool.and_eq_true]
    constructor
    · rw [markFn_book_id, flipFn_book_id]
      exact hb0id
    · rw [hm1]
      decide
  have hc3 : (((db.books.map (flipFn bid)).map (markFn bid)).filter
      (fun b => b.book_id == bid && b.available == 1)).length ≠ 0 :=
    length_ne_zero_of_mem (List.mem_filter.mpr ⟨hmem3, hpred3⟩)
  have step3 : borrow_book (markAvailable bid (closeBorrowRow db.nextBorrowId d2
        (insertBorrowRow bid uid d1 (flipToUnavailable bid db)))) uid bid d3
      = (some (db.nextBorrowId + 1),
         insertBorrowRow bid uid d3 (flipToUnavailable bid
           (markAvailable bid (closeBorrowRow db.nextBorrowId d2
             (insertBorrowRow bid uid d1 (flipToUnavailable bid db)))))) :=
    borrow_book_success _ uid bid d3 huB hc3
  have hrt : roundTrip db uid bid d1 d2 d3
      = ((some db.nextBorrowId, insertBorrowRow bid uid d1 (flipToUnavailable bid db)),
         (true, markAvailable bid (closeBorrowRow db.nextBorrowId d2
           (insertBorrowRow bid uid d1 (flipToUnavailable bid db)))),
         (some (db.nextBorrowId + 1),
          insertBorrowRow bid uid d3 (flipToUnavailable bid
            (markAvailable bid (closeBorrowRow db.nextBorrowId d2
              (insertBorrowRow bid uid d1 (flipToUnavailable bid db))))))) := by
    unfold roundTrip
    dsimp only
    rw [step1]
    dsimp only [Option.getD]
    rw [step2]
    dsimp only
    rw [step3]
  have a1 : bookAvail (insertBorrowRow bid uid d1 (flipToUnavailable bid db)) bid
      = some 0 := by
    unfold bookAvail
    show ((db.books.map (flipFn bid)).find? (fun b => b.book_id == bid)).map
        (fun b => b.available) = some 0
    rw [find?_books_map (flipFn bid) (flipFn_book_id bid), hfind]
    show some ((flipFn bid b0).available) = some 0
    rw [flipFn, if_pos hcond]
  have a2 : bookAvail (markAvailable bid (closeBorrowRow db.nextBorrowId d2
        (insertBorrowRow bid uid d1 (flipToUnavailable bid db)))) bid = some 1 := by
    unfold bookAvail
    show (((db.books.map (flipFn bid)).map (markFn bid)).find?
        (fun b => b.book_id == bid)).map (fun b => b.available) = some 1
    rw [find?_books_map (markFn bid) (markFn_book_id bid),
        find?_books_map (flipFn bid) (flipFn_book_id bid), hfind]
    show some ((markFn bid (flipFn bid b0)).available) = some 1
    rw [hm1]
  have a3 : bookAvail (insertBorrowRow bid uid d3 (flipToUnavailable bid
        (markAvailable bid (closeBorrowRow db.nextBorrowId d2
          (insertBorrowRow bid uid d1 (flipToUnavailable bid db)))))) bid = some 0 := by
    unfold bookAvail
    show ((((db.books.map (flipFn bid)).map (markFn bid)).map (flipFn bid)).find?
        (fun b => b.book_id == bid)).map (fun b => b.available) = some 0
    rw [find?_books_map (flipFn bid) (flipFn_book_id bid),
        find?_books_map (markFn bid) (markFn_book_id bid),
        find?_books_map (flipFn bid) (flipFn_book_id bid), hfind]
    show some ((flipFn bid (markFn bid (flipFn bid b0))).available) = some 0
    rw [flipFn, if_pos hpred3]
  rw [hrt]
  exact ⟨⟨rfl, rfl, rfl⟩, hb, a1, a2, a3⟩

/-- Witness for C6 on the concrete store with one member and one available
copy. -/
theorem C6_witness :
    ((roundTrip demoDB 1 1 "2025-01-01" "2025-01-02" "2025-01-03").1.1
        = some demoDB.nextBorrowId ∧
     (roundTrip demoDB 1 1 "2025-01-01" "2025-01-02" "2025-01-03").2.1.1 = true ∧
     (roundTrip demoDB 1 1 "2025-01-01" "2025-01-02" "2025-01-03").2.2.1
        = some (demoDB.nextBorrowId + 1)) ∧
    (bookAvail demoDB 1 = some 1 ∧
     bookAvail (roundTrip demoDB 1 1 "2025-01-01" "2025-01-02" "2025-01-03").1.2 1
        = some 0 ∧
     bookAvail (roundTrip demoDB 1 1 "2025-01-01" "2025-01-02" "2025-01-03").2.1.2 1
        = some 1 ∧
     bookAvail (roundTrip demoDB 1 1 "2025-01-01" "2025-01-02" "2025-01-03").2.2.2 1
        = some 0) :=
  C6_round_trip demoDB 1 1 "2025-01-01" "2025-01-02" "2025-01-03"
    (by decide) (by decide) (by decide)

/-! # The most-borrowed report -/

theorem filter_book_id_of_nodup (l : List Book) (hnd : (l.map Book.book_id).Nodup)
    (x : Nat) :
    l.filter (fun b => b.book_id == x) = (l.find? (fun b => b.book_id == x)).toList := by
  induction l with
  | nil => rfl
  | cons b l ih =>
    rw [List.map_cons, List.nodup_cons] at hnd
    obtain ⟨hb, hnd2⟩ := hnd
    rw [List.filter_cons, List.find?_cons]
    cases hc : (b.book_id == x) with
    | true =>
      have hnil : l.filter (fun b2 => b2.book_id == x) = [] := by
        apply List.filter_eq_nil_iff.mpr
        intro b2 hb2 hcc
        apply hb
        have : b2.book_id = b.book_id := by
          rw [beq_iff_eq.mp hcc, beq_iff_eq.mp hc]
        exact this ▸ List.mem_map_of_mem Book.book_id hb2
      simp [hnil]
    | false => simp [ih hnd2]

theorem joinRows_count_of_nodup (db : DB) (hnd : (db.books.map Book.book_id).Nodup)
    (k : String × String) :
    groupCount db k
      = (db.borrows.filter (fun r =>
          (db.books.find? (fun b => b.book_id == r.book_id)).any
            (fun b => b.title == k.1 && b.author == k.2))).length := by
  unfold groupCount joinRows
  induction db.borrows with
  | nil => rfl
  | cons r L ih =>
    rw [List.flatMap_cons, List.filter_append, List.length_append, ih, List.filter_cons,
        filter_book_id_of_nodup db.books hnd r.book_id]
    cases hf : db.books.find? (fun b => b.book_id == r.book_id) with
    | none => simp [hf]
    | some b1 =>
      cases hc : (b1.title == k.1 && b1.author == k.2) with
      | true => simp [hf, hc, Nat.add_comm]
      | false => simp [hf, hc]

theorem mem_most_borrowed (db : DB) (e : ReportRow) (he : e ∈ most_borrowed_books db) :
    e.borrow_count = groupCount db (e.title, e.author) := by
  have hperm : (most_borrowed_books db).Perm
      (((joinRows db).dedup).map (fun k => ⟨k.1, k.2, groupCount db k⟩)) :=
    List.mergeSort_perm _ _
  obtain ⟨k, _, rfl⟩ := List.mem_map.mp (hperm.subset he)
  rfl

/-- C8: most_borrowed_books groups by (title, author) and not by copy: no
two result entries share a (title, author) key, every entry counts all the
joined borrow rows carrying its key (so with unique book ids, all borrow
records of every copy with that title and author combined), and the entries
are ordered by borrow_count descending. -/
theorem C8_most_borrowed_grouping (db : DB) :
    ((most_borrowed_books db).map (fun e => (e.title, e.author))).Nodup ∧
    (∀ e ∈ most_borrowed_books db, e.borrow_count = groupCount db (e.title, e.author)) ∧
    (most_borrowed_books db).Sorted (fun a b => b.borrow_count ≤ a.borrow_count) ∧
    ((db.books.map Book.book_id).Nodup →
      ∀ e ∈ most_borrowed_books db,
        e.borrow_count = (db.borrows.filter (fun r =>
          (db.books.find? (fun b => b.book_id == r.book_id)).any
            (fun b => b.title == e.title && b.author == e.author))).length) := by
  have hperm : (most_borrowed_books db).Perm
      (((joinRows db).dedup).map (fun k => ⟨k.1, k.2, groupCount db k⟩)) :=
    List.mergeSort_perm _ _
  refine ⟨?_, fun e he => mem_most_borrowed db e he, ?_, ?_⟩
  · have hbase : (((joinRows db).dedup).map
        (fun k : String × String => (⟨k.1, k.2, groupCount db k⟩ : ReportRow))).map
          (fun e => (e.title, e.author)) = (joinRows db).dedup := by
      rw [List.map_map]
      exact List.map_id _
    have hpm := hperm.map (fun e : ReportRow => (e.title, e.author))
    rw [hbase] at hpm
    exact hpm.symm.nodup (List.nodup_dedup _)
  · have hs := @List.sorted_mergeSort ReportRow
      (fun a b : ReportRow => b.borrow_count ≤ a.borrow_count)
      (fun a b c hab hbc => by
        rw [decide_eq_true_eq] at hab hbc ⊢
        exact Nat.le_trans hbc hab)
      (fun a b => by
        rw [Bool.or_eq_true, decide_eq_true_eq, decide_eq_true_eq]
        exact Nat.le_total b.borrow_count a.borrow_count)
      (((joinRows db).dedup).map (fun k => ⟨k.1, k.2, groupCount db k⟩))
    exact hs.imp (fun h => decide_eq_true_eq.mp h)
  · intro hnd e he
    rw [mem_most_borrowed db e he]
    exact joinRows_count_of_nodup db hnd (e.title, e.author)

/-- Witness for C8 on a store where two distinct copies share title and
author: the single report entry combines the borrow records of both copies. -/
theorem C8_witness :
    (⟨"T", "A", 2⟩ : ReportRow).borrow_count = groupCount twoCopyDB ("T", "A") ∧
    (⟨"T", "A", 2⟩ : ReportRow).borrow_count
      = (twoCopyDB.borrows.filter (fun r =>
          (twoCopyDB.books.find? (fun b => b.book_id == r.book_id)).any
            (fun b => b.title == "T" && b.author == "A"))).length :=
  have hmem : (⟨"T", "A", 2⟩ : ReportRow) ∈ most_borrowed_books twoCopyDB :=
    (List.mergeSort_perm (((joinRows twoCopyDB).dedup).map
        (fun k => (⟨k.1, k.2, groupCount twoCopyDB k⟩ : ReportRow)))
      (fun a b : ReportRow => b.borrow_count ≤ a.borrow_count)).symm.subset (by decide)
  ⟨(C8_most_borrowed_grouping twoCopyDB).2.1 ⟨"T", "A", 2⟩ hmem,
   (C8_most_borrowed_grouping twoCopyDB).2.2.2 (by decide) ⟨"T", "A", 2⟩ hmem⟩
